import Mathlib

/-
Verification of the z_check logging and error-checking library
(src/z_check/z_check.c, src/z_check/z_check.h, src/z_check/z_check_guts.h),
modelled in its dynamically-configured build (Z_CHECK_STATIC_CONFIG not
defined), which is the configuration in which ZLog_Open and ZLog_Close exist.

The C library's observable behaviour is a process-wide logger state plus a
stream of output events.  We model the state as a structure, each operation
as a function from state (and inputs) to state and a list of emissions, and
the variadic formatter (vsnprintf) as an explicit input describing its
outcome, faithful to the C contract: a negative return value on error,
otherwise the length of the full would-be expansion, with at most
MESSAGE_MAX_LEN - 1 characters actually stored in the buffer.
-/

namespace ZCheck

/-- Truncation of a string to its first n characters, as storing into a
bounded, NUL-terminated C buffer does. -/
def strTake (n : Nat) (s : String) : String := ⟨s.data.take n⟩

/-- MESSAGE_MAX_LEN from z_check.c line 35. -/
def MESSAGE_MAX_LEN : Nat := 512

/-- MAX_LEGAL_LEVEL from z_check.c line 36: the numeric value of Z_DEBUG. -/
def MAX_LEGAL_LEVEL : Nat := 7

/-- The ZLogLevel_t enumeration values (z_check.h).  Levels are modelled as
the natural number a level's bit pattern denotes when the C code casts it to
unsigned, which is how every comparison in z_check.c treats levels. -/
def Z_EMERG : Nat := 0

/-- Z_ALERT enumeration value. -/
def Z_ALERT : Nat := 1

/-- Z_CRIT enumeration value. -/
def Z_CRIT : Nat := 2

/-- Z_ERR enumeration value. -/
def Z_ERR : Nat := 3

/-- Z_WARN enumeration value. -/
def Z_WARN : Nat := 4

/-- Z_NOTICE enumeration value. -/
def Z_NOTICE : Nat := 5

/-- Z_INFO enumeration value. -/
def Z_INFO : Nat := 6

/-- Z_DEBUG enumeration value. -/
def Z_DEBUG : Nat := 7

/-- ZLogType_t values in the dynamic configuration of z_check.h:
Z_STDOUT = 0, Z_STDERR = 1, Z_SYSLOG = 2.  Modelled as Int because the C
switch also accepts out-of-range values (the default branch). -/
def Z_STDOUT : Int := 0

/-- Z_STDERR log-type value. -/
def Z_STDERR : Int := 1

/-- Z_SYSLOG log-type value. -/
def Z_SYSLOG : Int := 2

/-- The three concrete sink functions a ZLogFn_t pointer can hold:
ZLog_StdErr, ZLog_StdOut, ZLog_Syslog. -/
inductive SinkKind
  | stdErrSink
  | stdOutSink
  | syslogSink
deriving DecidableEq, Repr

/-- An observable output event: either an invocation of the configured sink
function (with the arguments ZLog passes it) or a direct fprintf to stderr
that bypasses the sink abstraction. -/
inductive Emission
  | sinkCall (sink : SinkKind) (level : Nat) (file : String) (line : Int)
      (func : String) (message : String)
  | rawStderr (text : String)
deriving DecidableEq, Repr

/-- The logger's global state in the dynamic configuration:
m_moduleName, m_ZLogFunc (NULL modelled as none), m_logLevel,
m_logLevelOrig (z_check.c lines 72-75). -/
structure LoggerState where
  moduleName : String
  sink : Option SinkKind
  logLevel : Nat
  logLevelOrig : Nat
deriving DecidableEq, Repr

/-- Outcome of the vsnprintf call on the caller's format string and
arguments, per the C formatter contract: ok s means the full would-be
expansion is s and the return value is s.length; err n means the return
value is the negative number -(n+1), so err 0 is a return of -1 and
err (n+1) is a return of -(n+2). -/
inductive FmtResult
  | ok (s : String)
  | err (n : Nat)
deriving DecidableEq, Repr

/-- ZLog_LevelPasses (z_check.c lines 214-216):
(unsigned)level <= (unsigned)m_logLevel. -/
def ZLog_LevelPasses (st : LoggerState) (level : Nat) : Bool :=
  level ≤ st.logLevel

/-- The literal prefix of the fallback message built at z_check.c line 180. -/
def failedFmtMarker : String := "(failed to format message) "

/-- The fixed notice printed when ZLog is called with no sink configured
(z_check.c line 165). -/
def errNotOpen : String := "Error: May not use ZLog() before calling ZLog_Open()"

/-- ZLog (z_check.c lines 161-187), dynamic configuration.  If no sink is
configured, a fixed error notice goes straight to stderr.  Otherwise, if the
level passes the threshold gate, the message is formatted into a
MESSAGE_MAX_LEN buffer; a formatter return of exactly -1 is replaced by the
fallback snprintf of line 180 (whose return value is the length of the
marker plus the raw format string); the sink is called iff the final return
count is positive, with the (possibly truncated) buffer contents. -/
def ZLog (st : LoggerState) (level : Nat) (file : String) (line : Int)
    (func : String) (format : String) (fr : FmtResult) : List Emission :=
  match st.sink with
  | none => [Emission.rawStderr errNotOpen]
  | some k =>
    if ZLog_LevelPasses st level then
      match fr with
      | FmtResult.ok s =>
          if 0 < s.length then
            [Emission.sinkCall k level file line func (strTake (MESSAGE_MAX_LEN - 1) s)]
          else []
      | FmtResult.err 0 =>
          if 0 < (failedFmtMarker ++ format).length then
            [Emission.sinkCall k level file line func
              (strTake (MESSAGE_MAX_LEN - 1) (failedFmtMarker ++ format))]
          else []
      | FmtResult.err (_ + 1) => []
    else []

/-- DEFAULT_MODULE_NAME from z_check.c line 30 (dynamic configuration). -/
def DEFAULT_MODULE_NAME : String := "z_check"

/-- ZLog_ModuleNameInit (z_check.c lines 193-196): substitute the default
name only when the pointer is NULL (modelled as none), then strncpy at most
maxLen - 1 characters into the zeroed buffer.  The buffer size
Z_CHECK_MODULE_NAME_MAX_LEN is build configuration not present under src/,
so it is a parameter here. -/
def ZLog_ModuleNameInit (maxLen : Nat) (moduleName : Option String) : String :=
  strTake (maxLen - 1) (moduleName.getD DEFAULT_MODULE_NAME)

/-- ZLog_LevelIsLegal (z_check.c lines 209-211):
MAX_LEGAL_LEVEL >= (unsigned)level. -/
def ZLog_LevelIsLegal (level : Nat) : Bool :=
  MAX_LEGAL_LEVEL ≥ level

/-- The warning fprintf'd to stderr by ZLog_LevelSanitize (line 202). -/
def invalidLevelWarning (level : Nat) : String :=
  "Warning: Invalid log level (" ++ toString level ++
    "); falling back to MAX_LEGAL_LEVEL (7)"

/-- ZLog_LevelSanitize (z_check.c lines 198-207): an illegal level is
replaced by MAX_LEGAL_LEVEL and a warning is written directly to stderr
(returned here as an emission, since the logger is not yet usable). -/
def ZLog_LevelSanitize (logLevel : Nat) : Nat × List Emission :=
  if ZLog_LevelIsLegal logLevel then (logLevel, [])
  else (MAX_LEGAL_LEVEL, [Emission.rawStderr (invalidLevelWarning logLevel)])

/-- The warning fprintf'd to stderr on an unknown log type (line 133). -/
def unknownTypeWarning (t : Int) : String :=
  "Warning: Unknown log type (" ++ toString t ++ "); falling back to stderr"

/-- The expansion of the format string at z_check.c line 106 for the
already-open warning. -/
def openTwiceMsg (moduleName : String) : String :=
  "called ZLog_Open() twice in same module, " ++ moduleName

/-- The raw format string at z_check.c line 106. -/
def openTwiceFmt : String := "called ZLog_Open() twice in same module, %s"

/-- ZLog_Open (z_check.c lines 104-139).  If a sink is already configured,
the body only executes Z_LOG(Z_WARN, "called ZLog_Open() twice in same
module, %s", m_moduleName), which routes through ZLog; the state is
untouched.  Otherwise the level is sanitized, the module name initialized,
both thresholds set, and the log type resolved to a sink function, with
unknown types falling back to stderr plus a direct stderr warning. -/
def ZLog_Open (st : LoggerState) (maxLen : Nat) (logType : Int)
    (logLevel : Nat) (moduleName : Option String) : LoggerState × List Emission :=
  match st.sink with
  | some _ =>
      (st, ZLog st Z_WARN ("z_check.c") 106 ("ZLog_Open") openTwiceFmt
            (FmtResult.ok (openTwiceMsg st.moduleName)))
  | none =>
      let sanitized := ZLog_LevelSanitize logLevel
      let name := ZLog_ModuleNameInit maxLen moduleName
      let sinkChoice : SinkKind × List Emission :=
        if logType = Z_STDERR then (SinkKind.stdErrSink, [])
        else if logType = Z_STDOUT then (SinkKind.stdOutSink, [])
        else if logType = Z_SYSLOG then (SinkKind.syslogSink, [])
        else (SinkKind.stdErrSink, [Emission.rawStderr (unknownTypeWarning logType)])
      ({ moduleName := name, sink := some sinkChoice.1,
         logLevel := sanitized.1, logLevelOrig := sanitized.1 },
       sanitized.2 ++ sinkChoice.2)

/-- ZLog_Close (z_check.c lines 141-150): clear the sink pointer and zero the
module-name buffer; thresholds are left as they are. -/
def ZLog_Close (st : LoggerState) : LoggerState :=
  { moduleName := "", sink := none,
    logLevel := st.logLevel, logLevelOrig := st.logLevelOrig }

/-- ZLog_LevelSet (z_check.c lines 153-155): store the given level with no
validation. -/
def ZLog_LevelSet (st : LoggerState) (logLevel : Nat) : LoggerState :=
  { st with logLevel := logLevel }

/-- ZLog_LevelReset (z_check.c lines 157-159). -/
def ZLog_LevelReset (st : LoggerState) : LoggerState :=
  { st with logLevel := st.logLevelOrig }

/-- The fixed 8-entry level-name table of ZLog_LevelStr (lines 223-232). -/
def levelStrs : List String :=
  ["EMERGENCY", "ALERT", "CRITICAL", "ERROR", "WARNING", "NOTICE", "INFO", "DEBUG"]

/-- ZLog_LevelStr (z_check.c lines 218-234): index the fixed table with the
level.  The C access levelStrs[(int)level] is unchecked; an out-of-bounds
index is undefined behaviour, modelled by none. -/
def ZLog_LevelStr (level : Nat) : Option String :=
  levelStrs.get? level

/-- A C argument expression handed to one of the macros: its value together
with the side effects performed when (and only when) it is evaluated. -/
structure Arg (α : Type) where
  effects : List String
  val : α

/-- The observable result of one expansion of a check macro at a call site:
the caller's status variable afterwards, the log emissions produced, the
label jumped to (none means fall through), and the side effects of the
argument expressions that were evaluated, in evaluation order. -/
structure CheckResult where
  status : Int
  emissions : List Emission
  transfer : Option String
  evaluated : List String
deriving DecidableEq, Repr

/-- Z_CHECK (z_check.h lines 162-169): if the condition evaluates true, then
Z_LOG(level, __VA_ARGS__) runs (evaluating level and the message arguments
and routing through ZLog), status is assigned new_status (evaluating it),
and control transfers to the conventional cleanup label; a false condition
evaluates nothing else and changes nothing. -/
def Z_CHECK (st : LoggerState) (status : Int) (cond : Arg Bool)
    (newStatus : Arg Int) (level : Arg Nat) (msg : Arg (String × FmtResult))
    (file : String) (line : Int) (func : String) : CheckResult :=
  if cond.val then
    { status := newStatus.val
      emissions := ZLog st level.val file line func msg.val.1 msg.val.2
      transfer := some ("cleanup")
      evaluated := cond.effects ++ level.effects ++ msg.effects ++ newStatus.effects }
  else
    { status := status, emissions := [], transfer := none, evaluated := cond.effects }

/-- The Z_LOG macro (z_check.h lines 136-137): unconditionally evaluate the
level and message arguments and call ZLog. -/
structure LogCallResult where
  emissions : List Emission
  evaluated : List String
deriving DecidableEq, Repr

/-- One expansion of Z_LOG at a call site. -/
def Z_LOG (st : LoggerState) (level : Arg Nat) (msg : Arg (String × FmtResult))
    (file : String) (line : Int) (func : String) : LogCallResult :=
  { emissions := ZLog st level.val file line func msg.val.1 msg.val.2
    evaluated := level.effects ++ msg.effects }

/-- The variadic no-op function the disabled (NDEBUG) debug macros expand
to (z_check.h line 191): a real C function call, so every argument
expression is evaluated; the body does nothing. -/
def unusedArgsCheck (status : Int) (cond : Arg Bool) (newStatus : Arg Int)
    (level : Arg Nat) (msg : Arg (String × FmtResult)) : CheckResult :=
  { status := status, emissions := [], transfer := none,
    evaluated := cond.effects ++ newStatus.effects ++ level.effects ++ msg.effects }

/-- ZD_CHECK (z_check.h lines 190-203): with the debug flag active (NDEBUG
undefined) it is exactly Z_CHECK; with the flag inactive it expands to the
no-op variadic function applied to all arguments. -/
def ZD_CHECK (debugActive : Bool) (st : LoggerState) (status : Int)
    (cond : Arg Bool) (newStatus : Arg Int) (level : Arg Nat)
    (msg : Arg (String × FmtResult)) (file : String) (line : Int)
    (func : String) : CheckResult :=
  if debugActive then
    Z_CHECK st status cond newStatus level msg file line func
  else
    unusedArgsCheck status cond newStatus level msg

/-- ZD_LOG (z_check.h lines 194 and 201): Z_LOG when the debug flag is
active; the argument-evaluating no-op when it is inactive. -/
def ZD_LOG (debugActive : Bool) (st : LoggerState) (level : Arg Nat)
    (msg : Arg (String × FmtResult)) (file : String) (line : Int)
    (func : String) : LogCallResult :=
  if debugActive then
    Z_LOG st level msg file line func
  else
    { emissions := [], evaluated := level.effects ++ msg.effects }

/-- A formatter outcome that yields a positive final count in ZLog, i.e.
one that makes the gate-passing path actually call the sink: a non-empty
expansion, or the error return -1 (whose fallback message is non-empty). -/
def fmtEmits : FmtResult → Bool
  | FmtResult.ok s => s.length != 0
  | FmtResult.err n => n == 0

/-- Apply a whole sequence of ZLog_LevelSet calls in order. -/
def levelSetSeq (st : LoggerState) (ls : List Nat) : LoggerState :=
  ls.foldl ZLog_LevelSet st

/-! Helper lemmas shared by the claim theorems. -/

lemma strTake_length (n : Nat) (s : String) : (strTake n s).length = min n s.length := by
  show (s.data.take n).length = min n s.data.length
  exact List.length_take n s.data

lemma strTake_pos (n : Nat) (s : String) (hn : 0 < n) (hs : 0 < s.length) :
    0 < (strTake n s).length := by
  rw [strTake_length]
  exact lt_min hn hs

lemma failedFmt_length_pos (format : String) : 0 < (failedFmtMarker ++ format).length := by
  rw [String.length_append]
  have h : 0 < failedFmtMarker.length := by decide
  omega

lemma openTwiceMsg_length_pos (m : String) : 0 < (openTwiceMsg m).length := by
  unfold openTwiceMsg
  rw [String.length_append]
  have h : 0 < ("called ZLog_Open() twice in same module, ").length := by decide
  omega

lemma zlog_len_le_one (st : LoggerState) (level : Nat) (file : String) (line : Int)
    (func : String) (format : String) (fr : FmtResult) :
    (ZLog st level file line func format fr).length ≤ 1 := by
  unfold ZLog
  cases st.sink with
  | none => simp
  | some k =>
    cases fr with
    | ok s =>
      dsimp only
      split
      · split <;> simp
      · simp
    | err n =>
      cases n with
      | zero =>
        dsimp only
        split
        · split <;> simp
        · simp
      | succ m =>
        dsimp only
        split <;> simp

lemma zlog_suppressed (st : LoggerState) (k : SinkKind) (level : Nat) (file : String)
    (line : Int) (func : String) (format : String) (fr : FmtResult)
    (hs : st.sink = some k) (hlt : st.logLevel < level) :
    ZLog st level file line func format fr = [] := by
  have hb : ZLog_LevelPasses st level = false := by
    simp [ZLog_LevelPasses]
    omega
  unfold ZLog
  rw [hs, hb]
  simp

lemma zlog_emits_singleton (st : LoggerState) (k : SinkKind) (level : Nat) (file : String)
    (line : Int) (func : String) (format : String) (fr : FmtResult)
    (hs : st.sink = some k) (hle : level ≤ st.logLevel) (hf : fmtEmits fr = true) :
    ∃ m, ZLog st level file line func format fr =
        [Emission.sinkCall k level file line func m] ∧ 0 < m.length := by
  have hb : ZLog_LevelPasses st level = true := by
    simpa [ZLog_LevelPasses] using hle
  unfold ZLog
  rw [hs, hb]
  cases fr with
  | ok s =>
    have hlen : 0 < s.length := by
      have := hf
      simp [fmtEmits] at this
      omega
    refine ⟨strTake (MESSAGE_MAX_LEN - 1) s, ?_, ?_⟩
    · simp [hlen]
    · exact strTake_pos _ _ (by decide) hlen
  | err n =>
    have hn : n = 0 := by simpa [fmtEmits] using hf
    subst hn
    refine ⟨strTake (MESSAGE_MAX_LEN - 1) (failedFmtMarker ++ format), ?_, ?_⟩
    · simp [failedFmt_length_pos format]
      intro h
      exact absurd h (by decide)
    · exact strTake_pos _ _ (by decide) (failedFmt_length_pos format)

lemma levelSetSet (st : LoggerState) (a b : Nat) :
    ZLog_LevelSet (ZLog_LevelSet st a) b = ZLog_LevelSet st b := by
  cases st
  rfl

lemma reset_after_sets (st : LoggerState) (h : st.logLevel = st.logLevelOrig)
    (L : Nat) (ls : List Nat) :
    ZLog_LevelReset (levelSetSeq (ZLog_LevelSet st L) ls) = st := by
  induction ls generalizing L with
  | nil =>
    cases st with
    | mk mn sk lv lo =>
      simp only [levelSetSeq, List.foldl_nil, ZLog_LevelSet, ZLog_LevelReset]
      simp at h
      simp [h]
  | cons a as ih =>
    show ZLog_LevelReset (levelSetSeq (ZLog_LevelSet (ZLog_LevelSet st L) a) as) = st
    rw [levelSetSet]
    exact ih a

/-- C1: with a sink configured, a Log call at a level numerically greater
than the current threshold never invokes the sink, and a Log call at a level
less than or equal to the threshold invokes the sink exactly once with a
non-empty message, provided the formatting step yields a positive character
count (a non-empty expansion, or the -1 error return whose fallback message
is non-empty); a zero-character expansion suppresses the sink call. -/
theorem zlog_gate_spec (st : LoggerState) (k : SinkKind) (level : Nat)
    (file : String) (line : Int) (func : String) (format : String) (fr : FmtResult)
    (hs : st.sink = some k) :
    (st.logLevel < level → ZLog st level file line func format fr = []) ∧
    (level ≤ st.logLevel → fmtEmits fr = true →
      ∃ m, ZLog st level file line func format fr =
          [Emission.sinkCall k level file line func m] ∧ 0 < m.length) := by
  constructor
  · intro hlt
    exact zlog_suppressed st k level file line func format fr hs hlt
  · intro hle hf
    exact zlog_emits_singleton st k level file line func format fr hs hle hf

/-- Witness for zlog_gate_spec at a concrete open logger. -/
theorem zlog_gate_witness :
    ∃ m, ZLog ⟨"m", some SinkKind.stdOutSink, 7, 7⟩ 3 ("f") 1 ("g") ("x")
        (FmtResult.ok ("hello")) =
      [Emission.sinkCall SinkKind.stdOutSink 3 ("f") 1 ("g") m] ∧ 0 < m.length :=
  (zlog_gate_spec ⟨"m", some SinkKind.stdOutSink, 7, 7⟩ SinkKind.stdOutSink 3
    ("f") 1 ("g") ("x") (FmtResult.ok ("hello")) rfl).2 (by decide) (by decide)

/-- Counterexample to C1 as stated: at an open logger with threshold DEBUG,
a Log call at level Z_ERR (which passes the gate) whose format expands to
zero characters does not invoke the sink at all, so the sink is not invoked
exactly once with a non-empty message. -/
theorem zlog_gate_cex :
    (⟨"m", some SinkKind.stdOutSink, 7, 7⟩ : LoggerState).sink = some SinkKind.stdOutSink ∧
    (3 : Nat) ≤ (⟨"m", some SinkKind.stdOutSink, 7, 7⟩ : LoggerState).logLevel ∧
    ZLog ⟨"m", some SinkKind.stdOutSink, 7, 7⟩ 3 ("f") 1 ("g") ("") (FmtResult.ok ("")) = [] := by
  decide

/-- C2: Z_CHECK with a false condition leaves the status variable unchanged,
transfers no control and emits nothing; with a true condition it assigns the
new status, transfers control to the cleanup label, and makes exactly one
call to the Log operation, whose emissions (at most one) are those of ZLog
under the threshold gate. -/
theorem z_check_spec (st : LoggerState) (status : Int) (cond : Arg Bool)
    (newStatus : Arg Int) (level : Arg Nat) (msg : Arg (String × FmtResult))
    (file : String) (line : Int) (func : String) :
    (cond.val = false →
      Z_CHECK st status cond newStatus level msg file line func =
        { status := status, emissions := [], transfer := none,
          evaluated := cond.effects }) ∧
    (cond.val = true →
      (Z_CHECK st status cond newStatus level msg file line func).status = newStatus.val ∧
      (Z_CHECK st status cond newStatus level msg file line func).transfer = some ("cleanup") ∧
      (Z_CHECK st status cond newStatus level msg file line func).emissions =
        ZLog st level.val file line func msg.val.1 msg.val.2 ∧
      (Z_CHECK st status cond newStatus level msg file line func).emissions.length ≤ 1) := by
  constructor
  · intro h
    simp [Z_CHECK, h]
  · intro h
    refine ⟨by simp [Z_CHECK, h], by simp [Z_CHECK, h], by simp [Z_CHECK, h], ?_⟩
    simp only [Z_CHECK, h, if_true]
    exact zlog_len_le_one st level.val file line func msg.val.1 msg.val.2

/-- Witness for z_check_spec at a concrete true check. -/
theorem z_check_witness :
    (Z_CHECK ⟨"m", some SinkKind.stdOutSink, 7, 7⟩ 0 ⟨[], true⟩ ⟨[], -1⟩ ⟨[], 3⟩
      ⟨[], ("x", FmtResult.ok ("x"))⟩ ("f") 1 ("g")).status = -1 := by
  have h := (z_check_spec ⟨"m", some SinkKind.stdOutSink, 7, 7⟩ 0 ⟨[], true⟩ ⟨[], -1⟩
    ⟨[], 3⟩ ⟨[], ("x", FmtResult.ok ("x"))⟩ ("f") 1 ("g")).2 rfl
  exact h.1

/-- Counterexample to C2 as stated: with the threshold at Z_EMERG, a true
Z_CHECK at level Z_DEBUG assigns the status and transfers control but
produces zero log emissions, not exactly one. -/
theorem z_check_cex :
    (Z_CHECK ⟨"m", some SinkKind.stdOutSink, 0, 0⟩ 0 ⟨[], true⟩ ⟨[], -1⟩ ⟨[], 7⟩
      ⟨[], ("x", FmtResult.ok ("x"))⟩ ("f") 1 ("g")).status = -1 ∧
    (Z_CHECK ⟨"m", some SinkKind.stdOutSink, 0, 0⟩ 0 ⟨[], true⟩ ⟨[], -1⟩ ⟨[], 7⟩
      ⟨[], ("x", FmtResult.ok ("x"))⟩ ("f") 1 ("g")).transfer = some ("cleanup") ∧
    (Z_CHECK ⟨"m", some SinkKind.stdOutSink, 0, 0⟩ 0 ⟨[], true⟩ ⟨[], -1⟩ ⟨[], 7⟩
      ⟨[], ("x", FmtResult.ok ("x"))⟩ ("f") 1 ("g")).emissions.length = 0 := by
  decide

/-- C3: calling ZLog_Open while a sink is already configured leaves the
whole state (module name, sink, both thresholds) unchanged and performs one
warning Log call at Z_WARN, whose message is emitted to the sink exactly
when Z_WARN passes the current threshold, and suppressed otherwise. -/
theorem open_twice_spec (st : LoggerState) (k : SinkKind) (maxLen : Nat)
    (logType : Int) (logLevel : Nat) (mn : Option String) (hs : st.sink = some k) :
    (ZLog_Open st maxLen logType logLevel mn).1 = st ∧
    (ZLog_Open st maxLen logType logLevel mn).2 =
      (if Z_WARN ≤ st.logLevel then
        [Emission.sinkCall k Z_WARN ("z_check.c") 106 ("ZLog_Open")
          (strTake (MESSAGE_MAX_LEN - 1) (openTwiceMsg st.moduleName))]
      else []) := by
  have h1 : ZLog_Open st maxLen logType logLevel mn =
      (st, ZLog st Z_WARN ("z_check.c") 106 ("ZLog_Open") openTwiceFmt
        (FmtResult.ok (openTwiceMsg st.moduleName))) := by
    unfold ZLog_Open
    rw [hs]
  refine ⟨by rw [h1], ?_⟩
  rw [h1]
  dsimp only
  by_cases hw : Z_WARN ≤ st.logLevel
  · rw [if_pos hw]
    have hb : ZLog_LevelPasses st Z_WARN = true := by
      simpa [ZLog_LevelPasses] using hw
    unfold ZLog
    rw [hs]
    simp [hb, openTwiceMsg_length_pos st.moduleName]
  · rw [if_neg hw]
    exact zlog_suppressed st k Z_WARN ("z_check.c") 106 ("ZLog_Open") openTwiceFmt
      (FmtResult.ok (openTwiceMsg st.moduleName)) hs (by omega)

/-- Witness for open_twice_spec: a second Open at threshold Z_DEBUG leaves
the state unchanged and emits exactly one warning. -/
theorem open_twice_witness :
    (ZLog_Open ⟨"m", some SinkKind.stdOutSink, 7, 7⟩ 32 0 6 none).1 =
      ⟨"m", some SinkKind.stdOutSink, 7, 7⟩ ∧
    (ZLog_Open ⟨"m", some SinkKind.stdOutSink, 7, 7⟩ 32 0 6 none).2.length = 1 := by
  have h := open_twice_spec ⟨"m", some SinkKind.stdOutSink, 7, 7⟩ SinkKind.stdOutSink
    32 0 6 none rfl
  refine ⟨h.1, ?_⟩
  rw [h.2]
  decide

/-- Counterexample to C3 as stated: at a logger already open with threshold
Z_ERR (numerically 3, stricter than Z_WARN = 4), a second Open leaves the
state unchanged but emits no warning at all, because the warning is itself
routed through the threshold gate. -/
theorem open_twice_cex :
    (ZLog_Open ⟨"m", some SinkKind.stdOutSink, 3, 3⟩ 32 0 6 (some ("n"))).1 =
      ⟨"m", some SinkKind.stdOutSink, 3, 3⟩ ∧
    (ZLog_Open ⟨"m", some SinkKind.stdOutSink, 3, 3⟩ 32 0 6 (some ("n"))).2 = [] := by
  decide

/-- C4: a first Open with a level outside the legal range stores
MAX_LEGAL_LEVEL (Z_DEBUG = 7, the highest-verbosity legal value) in both
thresholds, writes a warning directly to the raw stderr stream, and still
configures a sink (Open never fails). -/
theorem open_sanitize_spec (st : LoggerState) (maxLen : Nat) (logType : Int)
    (logLevel : Nat) (mn : Option String) (hs : st.sink = none)
    (hlv : MAX_LEGAL_LEVEL < logLevel) :
    (ZLog_Open st maxLen logType logLevel mn).1.logLevel = MAX_LEGAL_LEVEL ∧
    (ZLog_Open st maxLen logType logLevel mn).1.logLevelOrig = MAX_LEGAL_LEVEL ∧
    (ZLog_Open st maxLen logType logLevel mn).1.sink.isSome = true ∧
    Emission.rawStderr (invalidLevelWarning logLevel) ∈
      (ZLog_Open st maxLen logType logLevel mn).2 := by
  have hleg : ZLog_LevelIsLegal logLevel = false := by
    simp [ZLog_LevelIsLegal]
    omega
  simp only [ZLog_Open, hs]
  simp [ZLog_LevelSanitize, hleg]

/-- Witness for open_sanitize_spec at the concrete illegal level 9. -/
theorem open_sanitize_witness :
    (ZLog_Open ⟨"", none, 0, 0⟩ 32 1 9 none).1.logLevel = MAX_LEGAL_LEVEL ∧
    (ZLog_Open ⟨"", none, 0, 0⟩ 32 1 9 none).1.logLevelOrig = MAX_LEGAL_LEVEL ∧
    (ZLog_Open ⟨"", none, 0, 0⟩ 32 1 9 none).1.sink.isSome = true ∧
    Emission.rawStderr (invalidLevelWarning 9) ∈ (ZLog_Open ⟨"", none, 0, 0⟩ 32 1 9 none).2 :=
  open_sanitize_spec ⟨"", none, 0, 0⟩ 32 1 9 none rfl (by decide)

/-- Counterexample to C4 as stated: the spec's LogLevel ordering is
ascending verbosity with numeric value, so the lowest-verbosity legal value
is Emergency (0); an out-of-range initial level 8 is stored as 7 (Z_DEBUG,
the most verbose legal value), not as 0. -/
theorem open_sanitize_cex :
    (ZLog_Open ⟨"", none, 0, 0⟩ 32 0 8 none).1.logLevel = 7 ∧
    (ZLog_Open ⟨"", none, 0, 0⟩ 32 0 8 none).1.logLevelOrig = 7 ∧
    ¬ (ZLog_Open ⟨"", none, 0, 0⟩ 32 0 8 none).1.logLevel = Z_EMERG := by
  decide

/-- C5: when the gate passes and the formatter reports failure with return
value -1, ZLog substitutes the fallback message echoing the raw format
string behind the failed-to-format marker and still dispatches it to the
sink (the message is non-empty, so the line is not dropped). -/
theorem zlog_fmt_fallback_spec (st : LoggerState) (k : SinkKind) (level : Nat)
    (file : String) (line : Int) (func : String) (format : String)
    (hs : st.sink = some k) (hp : level ≤ st.logLevel) :
    ZLog st level file line func format (FmtResult.err 0) =
      [Emission.sinkCall k level file line func
        (strTake (MESSAGE_MAX_LEN - 1) (failedFmtMarker ++ format))] ∧
    0 < (strTake (MESSAGE_MAX_LEN - 1) (failedFmtMarker ++ format)).length := by
  have hb : ZLog_LevelPasses st level = true := by
    simpa [ZLog_LevelPasses] using hp
  constructor
  · unfold ZLog
    rw [hs]
    simp [hb, failedFmt_length_pos format]
    intro h
    exact absurd h (by decide)
  · exact strTake_pos _ _ (by decide) (failedFmt_length_pos format)

/-- Witness for zlog_fmt_fallback_spec at a concrete open logger. -/
theorem zlog_fmt_fallback_witness :
    ZLog ⟨"m", some SinkKind.stdOutSink, 7, 7⟩ 3 ("f") 1 ("g") ("%ls x")
        (FmtResult.err 0) =
      [Emission.sinkCall SinkKind.stdOutSink 3 ("f") 1 ("g")
        (strTake (MESSAGE_MAX_LEN - 1) (failedFmtMarker ++ ("%ls x")))] ∧
    0 < (strTake (MESSAGE_MAX_LEN - 1) (failedFmtMarker ++ ("%ls x"))).length :=
  zlog_fmt_fallback_spec ⟨"m", some SinkKind.stdOutSink, 7, 7⟩ SinkKind.stdOutSink 3
    ("f") 1 ("g") ("%ls x") rfl (by decide)

/-- Counterexample to C5 as stated: the code tests the formatter return
against -1 exactly, so a failure reported with the negative return -2
(FmtResult.err 1) is not given the fallback message: the log line is
dropped even though the gate passes and a sink is configured. -/
theorem zlog_fmt_fallback_cex :
    (⟨"m", some SinkKind.stdOutSink, 7, 7⟩ : LoggerState).sink = some SinkKind.stdOutSink ∧
    (3 : Nat) ≤ (⟨"m", some SinkKind.stdOutSink, 7, 7⟩ : LoggerState).logLevel ∧
    ZLog ⟨"m", some SinkKind.stdOutSink, 7, 7⟩ 3 ("f") 1 ("g") ("%ls") (FmtResult.err 1) = [] := by
  decide

/-- C6: when the gate passes and the formatted expansion is longer than the
buffer can hold, ZLog stores exactly the first MESSAGE_MAX_LEN - 1
characters (never more than the buffer), and the truncated message is still
dispatched to the sink in a single call. -/
theorem zlog_truncation_spec (st : LoggerState) (k : SinkKind) (level : Nat)
    (file : String) (line : Int) (func : String) (format : String) (s : String)
    (hs : st.sink = some k) (hp : level ≤ st.logLevel)
    (hlen : MESSAGE_MAX_LEN - 1 < s.length) :
    ZLog st level file line func format (FmtResult.ok s) =
      [Emission.sinkCall k level file line func (strTake (MESSAGE_MAX_LEN - 1) s)] ∧
    (strTake (MESSAGE_MAX_LEN - 1) s).length = MESSAGE_MAX_LEN - 1 ∧
    (strTake (MESSAGE_MAX_LEN - 1) s).length < MESSAGE_MAX_LEN ∧
    (strTake (MESSAGE_MAX_LEN - 1) s).data = s.data.take (MESSAGE_MAX_LEN - 1) := by
  have hb : ZLog_LevelPasses st level = true := by
    simpa [ZLog_LevelPasses] using hp
  have hpos : 0 < s.length :=
    Nat.lt_of_le_of_lt (Nat.zero_le (MESSAGE_MAX_LEN - 1)) hlen
  have hmin : (strTake (MESSAGE_MAX_LEN - 1) s).length = MESSAGE_MAX_LEN - 1 := by
    rw [strTake_length]
    exact min_eq_left (le_of_lt hlen)
  refine ⟨?_, hmin, ?_, rfl⟩
  · unfold ZLog
    rw [hs]
    simp [hb, hpos]
  · rw [hmin]
    decide

/-- Witness for zlog_truncation_spec on a 512-character expansion. -/
theorem zlog_truncation_witness :
    (strTake (MESSAGE_MAX_LEN - 1) ⟨List.replicate 512 ('a')⟩).length =
      MESSAGE_MAX_LEN - 1 := by
  have h := zlog_truncation_spec ⟨"m", some SinkKind.stdOutSink, 7, 7⟩
    SinkKind.stdOutSink 3 ("f") 1 ("g") ("x") ⟨List.replicate 512 ('a')⟩ rfl
    (by decide)
    (by
      show MESSAGE_MAX_LEN - 1 < (List.replicate 512 ('a')).length
      rw [List.length_replicate]
      decide)
  exact h.2.1

/-- C7: ZLog_LevelSet overwrites only the current threshold (module name,
sink and original threshold are untouched) and a Log at level L right after
LevelSet(L) passes the gate and emits; and from any pre-LevelSet state (one
whose current threshold equals the original), any sequence of LevelSet
calls followed by LevelReset restores exactly the original state, so Log
behaves identically to the pre-LevelSet threshold. -/
theorem levelset_reset_spec (st : LoggerState) (L : Nat) :
    ((ZLog_LevelSet st L).logLevel = L ∧
     (ZLog_LevelSet st L).moduleName = st.moduleName ∧
     (ZLog_LevelSet st L).sink = st.sink ∧
     (ZLog_LevelSet st L).logLevelOrig = st.logLevelOrig) ∧
    (∀ k file line func format fr, st.sink = some k → fmtEmits fr = true →
      (ZLog (ZLog_LevelSet st L) L file line func format fr).length = 1) ∧
    (st.logLevel = st.logLevelOrig → ∀ ls : List Nat,
      ZLog_LevelReset (levelSetSeq (ZLog_LevelSet st L) ls) = st ∧
      ∀ lvl file line func format fr,
        ZLog (ZLog_LevelReset (levelSetSeq (ZLog_LevelSet st L) ls))
            lvl file line func format fr =
          ZLog st lvl file line func format fr) := by
  refine ⟨⟨rfl, rfl, rfl, rfl⟩, ?_, ?_⟩
  · intro k file line func format fr hs hf
    obtain ⟨m, hm, _⟩ := zlog_emits_singleton (ZLog_LevelSet st L) k L file line func
      format fr (by simpa [ZLog_LevelSet] using hs) (by simp [ZLog_LevelSet]) hf
    rw [hm]
    rfl
  · intro h ls
    have he := reset_after_sets st h L ls
    exact ⟨he, fun lvl file line func format fr => by rw [he]⟩

/-- Witness for levelset_reset_spec: set the threshold to Z_DEBUG, log at
Z_DEBUG (one emission), then two more LevelSet calls and a LevelReset
restore the original state. -/
theorem levelset_reset_witness :
    (ZLog (ZLog_LevelSet ⟨"m", some SinkKind.stdOutSink, 6, 6⟩ 7) 7 ("f") 1 ("g") ("x")
      (FmtResult.ok ("y"))).length = 1 ∧
    ZLog_LevelReset (levelSetSeq (ZLog_LevelSet ⟨"m", some SinkKind.stdOutSink, 6, 6⟩ 7)
      [0, 3]) = ⟨"m", some SinkKind.stdOutSink, 6, 6⟩ := by
  have h := levelset_reset_spec ⟨"m", some SinkKind.stdOutSink, 6, 6⟩ 7
  exact ⟨h.2.1 SinkKind.stdOutSink ("f") 1 ("g") ("x") (FmtResult.ok ("y")) rfl (by decide),
    (h.2.2 rfl [0, 3]).1⟩

/-- C8 (amended): on a first Open, a null module-name pointer is replaced by
the default constant name, and any supplied string (including the empty
string, which is not replaced) is stored truncated to the buffer bound. -/
theorem open_module_name_spec (st : LoggerState) (maxLen : Nat) (logType : Int)
    (logLevel : Nat) (hs : st.sink = none) :
    (ZLog_Open st maxLen logType logLevel none).1.moduleName =
      strTake (maxLen - 1) DEFAULT_MODULE_NAME ∧
    ∀ s, (ZLog_Open st maxLen logType logLevel (some s)).1.moduleName =
      strTake (maxLen - 1) s := by
  constructor
  · simp [ZLog_Open, hs, ZLog_ModuleNameInit]
  · intro s
    simp [ZLog_Open, hs, ZLog_ModuleNameInit]

/-- Witness for open_module_name_spec at a concrete closed logger. -/
theorem open_module_name_witness :
    (ZLog_Open ⟨"", none, 5, 5⟩ 32 0 6 none).1.moduleName =
      strTake (32 - 1) DEFAULT_MODULE_NAME ∧
    ∀ s, (ZLog_Open ⟨"", none, 5, 5⟩ 32 0 6 (some s)).1.moduleName =
      strTake (32 - 1) s :=
  open_module_name_spec ⟨"", none, 5, 5⟩ 32 0 6 rfl

/-- Counterexample to C8 as stated: a first Open given the empty (non-null)
module name stores the empty string, not the default constant string. -/
theorem open_module_name_cex :
    (ZLog_Open ⟨"", none, 0, 0⟩ 32 0 7 (some (""))).1.moduleName = "" ∧
    ¬ (ZLog_Open ⟨"", none, 0, 0⟩ 32 0 7 (some (""))).1.moduleName = DEFAULT_MODULE_NAME := by
  decide

/-- C9 (amended): with the debug-build flag active the debug variants are
identical to the ordinary variants; with the flag inactive they change no
status, emit nothing and transfer no control, but they do evaluate every
argument expression (the disabled macros expand to a call of a variadic
no-op function), not only the condition. -/
theorem zd_check_spec (st : LoggerState) (status : Int) (cond : Arg Bool)
    (newStatus : Arg Int) (level : Arg Nat) (msg : Arg (String × FmtResult))
    (file : String) (line : Int) (func : String) :
    (ZD_CHECK true st status cond newStatus level msg file line func =
      Z_CHECK st status cond newStatus level msg file line func) ∧
    ((ZD_CHECK false st status cond newStatus level msg file line func).status = status ∧
     (ZD_CHECK false st status cond newStatus level msg file line func).emissions = [] ∧
     (ZD_CHECK false st status cond newStatus level msg file line func).transfer = none ∧
     (ZD_CHECK false st status cond newStatus level msg file line func).evaluated =
       cond.effects ++ newStatus.effects ++ level.effects ++ msg.effects) ∧
    (ZD_LOG true st level msg file line func = Z_LOG st level msg file line func) ∧
    ((ZD_LOG false st level msg file line func).emissions = [] ∧
     (ZD_LOG false st level msg file line func).evaluated =
       level.effects ++ msg.effects) :=
  ⟨rfl, ⟨rfl, rfl, rfl, rfl⟩, rfl, ⟨rfl, rfl⟩⟩

/-- Counterexample to C9 as stated: with the flag inactive and a false
condition carrying no side effects, the disabled ZD_CHECK still evaluates
the new-status argument, so its side effect happens even though the claim
says nothing beyond the condition is evaluated. -/
theorem zd_check_cex :
    (ZD_CHECK false ⟨"m", some SinkKind.stdOutSink, 7, 7⟩ 0 ⟨[], false⟩
      ⟨[("status argument side effect")], -1⟩ ⟨[], 3⟩ ⟨[], ("x", FmtResult.ok ("x"))⟩
      ("f") 1 ("g")).evaluated = [("status argument side effect")] ∧
    ¬ (ZD_CHECK false ⟨"m", some SinkKind.stdOutSink, 7, 7⟩ 0 ⟨[], false⟩
      ⟨[("status argument side effect")], -1⟩ ⟨[], 3⟩ ⟨[], ("x", FmtResult.ok ("x"))⟩
      ("f") 1 ("g")).evaluated = [] := by
  decide

/-- C10: when the current threshold is within the legal range, every sink
invocation a Log call produces carries a level that indexes the fixed
8-entry level-name table in bounds (the lookup cannot go out of range,
because the gate compares levels as unsigned values against the threshold);
and ZLog_LevelSet itself stores any level unvalidated. -/
theorem level_str_inbounds_spec (st : LoggerState) (level : Nat) (file : String)
    (line : Int) (func : String) (format : String) (fr : FmtResult)
    (h7 : st.logLevel ≤ MAX_LEGAL_LEVEL) :
    (∀ k l f2 li2 fn2 m,
      Emission.sinkCall k l f2 li2 fn2 m ∈ ZLog st level file line func format fr →
      l < levelStrs.length ∧ (ZLog_LevelStr l).isSome = true) ∧
    (∀ L, (ZLog_LevelSet st L).logLevel = L) := by
  constructor
  · intro k l f2 li2 fn2 m hmem
    have hl : l ≤ st.logLevel := by
      unfold ZLog at hmem
      cases hsk : st.sink with
      | none =>
        rw [hsk] at hmem
        simp at hmem
      | some k2 =>
        rw [hsk] at hmem
        dsimp only at hmem
        split at hmem
        case isTrue hg =>
          have hlev : level ≤ st.logLevel := by
            simpa [ZLog_LevelPasses] using hg
          cases fr with
          | ok s =>
            dsimp only at hmem
            split at hmem
            · simp only [List.mem_singleton, Emission.sinkCall.injEq] at hmem
              omega
            · simp at hmem
          | err n =>
            cases n with
            | zero =>
              dsimp only at hmem
              split at hmem
              · simp only [List.mem_singleton, Emission.sinkCall.injEq] at hmem
                omega
              · simp at hmem
            | succ n2 =>
              simp at hmem
        case isFalse hg =>
          simp at hmem
    have hl7 : l ≤ 7 := by
      have := le_trans hl h7
      simpa [MAX_LEGAL_LEVEL] using this
    have hlt : l < levelStrs.length := by
      have hlen8 : levelStrs.length = 8 := rfl
      omega
    refine ⟨hlt, ?_⟩
    have hl8 : l < 8 := by omega
    interval_cases l <;> decide
  · intro L
    rfl

/-- Witness for level_str_inbounds_spec at a concrete gate-passing Log. -/
theorem level_str_inbounds_witness :
    ((3 : Nat) < levelStrs.length ∧ (ZLog_LevelStr 3).isSome = true) ∧
    (ZLog_LevelSet ⟨"m", some SinkKind.stdOutSink, 6, 6⟩ 99).logLevel = 99 := by
  have h := level_str_inbounds_spec ⟨"m", some SinkKind.stdOutSink, 6, 6⟩ 3 ("f") 1
    ("g") ("x") (FmtResult.ok ("y")) (by decide)
  exact ⟨h.1 SinkKind.stdOutSink 3 ("f") 1 ("g") ("y") (by decide), h.2 99⟩

end ZCheck
